import Mathlib

/-!
Verification of the per-guild music queue manager
(src/src/server/music/MusicManager.ts and the command front-end).

The data model and every operation below are shallow embeddings of the
TypeScript source: pure state-transformers over an explicit `Queue` /
`ManagerState`, with provider I/O abstracted into a `ResolveEnv` record of
response functions and randomness abstracted into an explicit draw function.
-/

namespace DudeBot

/-- Requester identity attached to `addTrack` (shared/types.ts). -/
structure Requester where
  id : String
  username : String
  avatar : Option String
  deriving DecidableEq

/-- Provider tag of a resolved track (shared/types.ts, `source` field). -/
inductive Source
  | youtube
  | spotify
  deriving DecidableEq

/-- A resolved track descriptor (shared/types.ts `Track`). -/
structure Track where
  id : String
  title : String
  duration : Nat
  thumbnail : Option String
  url : String
  requester : Requester
  source : Source
  deriving DecidableEq

/-- Loop mode stored on a queue (shared/types.ts `Queue.loop`). -/
inductive LoopMode
  | none
  | track
  | queue
  deriving DecidableEq

/-- Per-guild queue state (shared/types.ts `Queue`). `tracks` is the pending
sequence; `currentTrack` the track currently loaded into the player. -/
structure Queue where
  tracks : List Track
  currentTrack : Option Track
  isPlaying : Bool
  isPaused : Bool
  volume : Int
  loop : LoopMode
  shuffle : Bool
  deriving DecidableEq

/-- The queue created by `joinChannel` when none exists for the guild
(MusicManager.ts lines 79-89). -/
def initQueue : Queue :=
  { tracks := [], currentTrack := none, isPlaying := false, isPaused := false,
    volume := 100, loop := .none, shuffle := false }

/-- State effect of `playNext` (MusicManager.ts lines 308-317): if pending is
empty it returns early, otherwise it shifts the head of `tracks` into
`currentTrack`.  The subsequent `play()` call does not mutate the queue. -/
def playNext (q : Queue) : Queue :=
  match q.tracks with
  | [] => q
  | t :: rest => { q with tracks := rest, currentTrack := some t }

/-- The `AudioPlayerStatus.Playing` handler (MusicManager.ts lines 92-97). -/
def onPlaying (q : Queue) : Queue :=
  { q with isPlaying := true, isPaused := false }

/-- The `AudioPlayerStatus.Paused` handler (MusicManager.ts lines 99-103).
Note that it sets `isPaused` but does not clear `isPlaying`. -/
def onPaused (q : Queue) : Queue :=
  { q with isPaused := true }

/-- The `AudioPlayerStatus.Idle` handler (MusicManager.ts lines 105-113):
clears both flags, then auto-advances via `playNext`. -/
def onIdle (q : Queue) : Queue :=
  playNext { q with isPlaying := false, isPaused := false }

/-- Queue-state effect of `skip` (MusicManager.ts lines 251-257) and of
natural end-of-track: `skip` only calls `player.stop()`, whose completion
signal fires the Idle handler, so both paths reduce to `onIdle`. -/
def skipQueueEffect : Queue → Queue := onIdle

/-- Queue-state effect of `stop` (MusicManager.ts lines 259-270):
`player.stop()` fires the Idle handler, after which `stop` clears the pending
list and `currentTrack`. -/
def stopQueueEffect (q : Queue) : Queue :=
  { onIdle q with tracks := [], currentTrack := none }

/-- `setVolume` (MusicManager.ts lines 290-297): clamps with
`Math.max(0, Math.min(100, volume))`. -/
def setVolume (q : Queue) (v : Int) : Queue :=
  { q with volume := max 0 (min 100 v) }

/-- `removeTrack` (MusicManager.ts lines 299-306): returns `none` (the
`return false` path, queue untouched) when the index is out of range,
otherwise splices out the track at `index`. -/
def removeTrack (q : Queue) (index : Int) : Option Queue :=
  if index < 0 ∨ (q.tracks.length : Int) ≤ index then none
  else some { q with tracks := q.tracks.eraseIdx index.toNat }

/-! ## Track resolution (provider model and URL classification) -/

/-- One search result from the primary provider (play-dl `search`). -/
structure Video where
  id : String
  title : String
  durationInSec : Nat
  thumbnail : Option String
  url : String
  deriving DecidableEq

/-- Catalog metadata returned by the Spotify `getTrack` call. -/
structure CatalogTrack where
  artistName : String
  name : String
  durationMs : Nat
  albumImage : Option String
  deriving DecidableEq

/-- Abstraction of the external providers used during resolution:
`searchResults q` is the list returned by the primary provider for query `q`
(empty list = no results); `spotify` is `none` when the catalog client was
never configured (MusicManager.ts lines 35-54), and otherwise maps a track id
to its catalog metadata (`none` = the catalog call fails). -/
structure ResolveEnv where
  searchResults : String → List Video
  spotify : Option (String → Option CatalogTrack)

/-- Strips a leading `https://` or `http://`, mirroring the optional scheme
group of the `isYouTubeUrl` regex. -/
def stripScheme (cs : List Char) : List Char :=
  if ("https://".toList).isPrefixOf cs then cs.drop 8
  else if ("http://".toList).isPrefixOf cs then cs.drop 7
  else cs

/-- Strips a leading `www.`, mirroring the optional `(www\.)?` group. -/
def stripWww (cs : List Char) : List Char :=
  if ("www.".toList).isPrefixOf cs then cs.drop 4 else cs

/-- `isYouTubeUrl` (MusicManager.ts lines 356-358): the anchored regex
accepts an optional scheme, an optional `www.`, then `youtube.com` or
`youtu.be`. -/
def isYouTubeUrl (s : String) : Bool :=
  let cs := stripWww (stripScheme s.toList)
  ("youtube.com".toList).isPrefixOf cs || ("youtu.be".toList).isPrefixOf cs

/-- `isSpotifyUrl` (MusicManager.ts lines 360-362): anchored regex for
`https?://open.spotify.com/track/`. -/
def isSpotifyUrl (s : String) : Bool :=
  ("https://open.spotify.com/track/".toList).isPrefixOf s.toList ||
    ("http://open.spotify.com/track/".toList).isPrefixOf s.toList

/-- Character class `[a-zA-Z0-9]` of the track-id capture group. -/
def isAlnum (c : Char) : Bool :=
  (('a' ≤ c && c ≤ 'z') || ('A' ≤ c && c ≤ 'Z') || ('0' ≤ c && c ≤ '9'))

/-- Unanchored search for `track/([a-zA-Z0-9]+)`: at each position, if the
literal `track/` is followed by at least one alphanumeric character the
maximal alphanumeric run is captured, else the search moves one position
right, as a backtracking regex engine would. -/
def extractIdAux : List Char → Option String
  | [] => none
  | c :: cs =>
    if ("track/".toList).isPrefixOf (c :: cs) then
      let run := ((c :: cs).drop 6).takeWhile isAlnum
      if run.isEmpty then extractIdAux cs else some (String.mk run)
    else extractIdAux cs

/-- `extractSpotifyTrackId` (MusicManager.ts lines 364-367). -/
def extractSpotifyTrackId (s : String) : Option String :=
  extractIdAux s.toList

/-- `getYouTubeTrack` (MusicManager.ts lines 154-168): takes the first search
result, failing when there is none. -/
def getYouTubeTrack (env : ResolveEnv) (url : String) (req : Requester) :
    Except String Track :=
  match env.searchResults url with
  | [] => .error "No video found"
  | v :: _ =>
    .ok { id := v.id, title := v.title, duration := v.durationInSec,
          thumbnail := v.thumbnail, url := v.url, requester := req,
          source := .youtube }

/-- `getSpotifyTrack` (MusicManager.ts lines 170-195): fails when the catalog
client is not configured, else fetches metadata and searches the primary
provider for `artist name` to obtain a playable URL. -/
def getSpotifyTrack (env : ResolveEnv) (url : String) (req : Requester) :
    Except String Track :=
  match env.spotify with
  | none => .error "Spotify not configured"
  | some getTrack =>
    match extractSpotifyTrackId url with
    | none => .error "Invalid Spotify URL"
    | some trackId =>
      match getTrack trackId with
      | none => .error "Spotify track lookup failed"
      | some ct =>
        match env.searchResults (ct.artistName ++ " " ++ ct.name) with
        | [] => .error "No YouTube equivalent found"
        | v :: _ =>
          .ok { id := v.id, title := ct.artistName ++ " - " ++ ct.name,
                duration := ct.durationMs / 1000, thumbnail := ct.albumImage,
                url := v.url, requester := req, source := .spotify }

/-- `searchYouTube` (MusicManager.ts lines 197-211): free-text search, first
candidate accepted. -/
def searchYouTube (env : ResolveEnv) (query : String) (req : Requester) :
    Except String Track :=
  match env.searchResults query with
  | [] => .error "No results found"
  | v :: _ =>
    .ok { id := v.id, title := v.title, duration := v.durationInSec,
          thumbnail := v.thumbnail, url := v.url, requester := req,
          source := .youtube }

/-- The query dispatch inside `addTrack` (MusicManager.ts lines 127-134). -/
def resolveQuery (env : ResolveEnv) (query : String) (req : Requester) :
    Except String Track :=
  if isYouTubeUrl query then getYouTubeTrack env query req
  else if isSpotifyUrl query then getSpotifyTrack env query req
  else searchYouTube env query req

/-! ## addTrack and the queue map -/

/-- The manager's `queues` map, as a total function to `Option Queue`. -/
def QueueMap : Type := String → Option Queue

/-- `this.queues.set(guildId, queue)`. -/
def setQueue (qs : QueueMap) (g : String) (q : Queue) : QueueMap :=
  fun x => if x = g then some q else qs x

/-- Queue-state effect of a successful `addTrack` on the guild's queue
(MusicManager.ts lines 136-145): push the resolved track, then auto-start via
`playNext` when nothing is playing and no `currentTrack` is set. -/
def addTrackQueueEffect (t : Track) (q : Queue) : Queue :=
  let q1 := { q with tracks := q.tracks ++ [t] }
  if !q1.isPlaying && q1.currentTrack.isNone then playNext q1 else q1

/-- `addTrack` (MusicManager.ts lines 123-152): resolves the query (any
thrown error is caught and `null` returned with no state change); on success
the track is appended to the guild's queue when one exists — when none
exists, the resolved track is still returned and the map is untouched. -/
def addTrack (env : ResolveEnv) (qs : QueueMap) (guildId query : String)
    (req : Requester) : Option Track × QueueMap :=
  match resolveQuery env query req with
  | .error _ => (none, qs)
  | .ok t =>
    match qs guildId with
    | none => (some t, qs)
    | some q => (some t, setQueue qs guildId (addTrackQueueEffect t q))

/-! ## Shuffle -/

/-- One in-place swap `[a[i], a[j]] = [a[j], a[i]]` of the Fisher-Yates loop
(MusicManager.ts line 282); in the loop both indices are always in range, so
the out-of-range completion is the identity. -/
def listSwap {α : Type} (l : List α) (i j : Nat) : List α :=
  if hi : i < l.length then
    if hj : j < l.length then
      (l.set i (l.get ⟨j, hj⟩)).set j (l.get ⟨i, hi⟩)
    else l
  else l

/-- The Fisher-Yates loop of `shuffle` (MusicManager.ts lines 280-283),
counting `i` down from `length - 1` to `1`; `rand k` abstracts the draw
`Math.floor(Math.random() * (k + 1))`, reduced mod `k + 1` to its range. -/
def fyAux {α : Type} (rand : Nat → Nat) : Nat → List α → List α
  | 0, l => l
  | i + 1, l => fyAux rand i (listSwap l (i + 1) (rand (i + 1) % (i + 2)))

/-- The whole permutation pass of `shuffle`. -/
def fisherYates {α : Type} (rand : Nat → Nat) (l : List α) : List α :=
  fyAux rand (l.length - 1) l

/-- `shuffle` (MusicManager.ts lines 272-288): flips the flag, and when the
new flag is on and more than one track is pending, permutes the pending
list in place. -/
def toggleShuffle (rand : Nat → Nat) (q : Queue) : Queue :=
  let q1 := { q with shuffle := !q.shuffle }
  if q1.shuffle && decide (1 < q1.tracks.length) then
    { q1 with tracks := fisherYates rand q1.tracks }
  else q1

/-! ## Session registry (joinChannel and the front-end join guard) -/

/-- A voice channel reference (id and owning guild). -/
structure VoiceChannelRef where
  id : String
  guildId : String
  deriving DecidableEq

/-- A guild's audio connection binding (MusicManager.ts `GuildConnection`,
with the opaque connection/player handles elided). -/
structure GuildConnection where
  voiceChannel : VoiceChannelRef
  textChannel : Option String
  deriving DecidableEq

/-- The manager's two per-guild maps. -/
structure ManagerState where
  connections : String → Option GuildConnection
  queues : String → Option Queue

/-- Success path of `joinChannel` (MusicManager.ts lines 56-121): records the
connection for the channel's guild and initialises the queue only when none
exists. -/
def joinChannel (st : ManagerState) (ch : VoiceChannelRef)
    (txt : Option String) : ManagerState :=
  { connections := fun g =>
      if g = ch.guildId then some { voiceChannel := ch, textChannel := txt }
      else st.connections g,
    queues := fun g =>
      if g = ch.guildId then some ((st.queues ch.guildId).getD initQueue)
      else st.queues g }

/-- Outcome of the registry-level join. -/
inductive JoinOutcome
  | ok
  | channelConflict
  deriving DecidableEq

/-- The registry-level `join` as performed by `handlePlayCommand`
(src/unnamed/part_000 lines 325-339): an existing connection to a different
channel is a `ChannelConflict` error and nothing is relocated; an existing
connection to the same channel skips `joinChannel` entirely; otherwise the
channel is joined (success path modelled). -/
def join (st : ManagerState) (guildId : String) (ch : VoiceChannelRef)
    (txt : Option String) : JoinOutcome × ManagerState :=
  match st.connections guildId with
  | some conn =>
    if conn.voiceChannel.id ≠ ch.id then (.channelConflict, st)
    else (.ok, st)
  | none => (.ok, joinChannel st ch txt)

/-! ## Reachable queue states -/

/-- One serialized event on a guild's queue: an audio-player status handler
firing, or the queue-state effect of a public mutating operation. -/
inductive QStep : Queue → Queue → Prop
  | playing (q : Queue) : QStep q (onPlaying q)
  | pausedEvt (q : Queue) : QStep q (onPaused q)
  | idleEvt (q : Queue) : QStep q (onIdle q)
  | addOk (t : Track) (q : Queue) : QStep q (addTrackQueueEffect t q)
  | stopCmd (q : Queue) : QStep q (stopQueueEffect q)
  | setVol (v : Int) (q : Queue) : QStep q (setVolume q v)
  | removeOk (i : Int) (q q' : Queue) : removeTrack q i = some q' → QStep q q'
  | toggle (rand : Nat → Nat) (q : Queue) : QStep q (toggleShuffle rand q)

/-- A queue state reachable from the freshly initialised queue through the
event handlers and public operations. -/
def ReachableQueue (q : Queue) : Prop :=
  Relation.ReflTransGen QStep initQueue q

/-! ## Concrete fixtures used by witnesses and counterexamples -/

/-- A concrete requester. -/
def reqA : Requester := { id := "u1", username := "alice", avatar := none }

/-- A concrete resolved track. -/
def trackA : Track :=
  { id := "a", title := "A", duration := 60, thumbnail := none, url := "urlA",
    requester := reqA, source := .youtube }

/-- A second concrete resolved track. -/
def trackB : Track :=
  { id := "b", title := "B", duration := 90, thumbnail := none, url := "urlB",
    requester := reqA, source := .youtube }

/-- A concrete primary-provider search result. -/
def vidA : Video :=
  { id := "abc", title := "Song A", durationInSec := 180, thumbnail := none,
    url := "https://youtube.com/watch?v=abc" }

/-- The track `vidA` resolves to for requester `reqA`. -/
def resolvedA : Track :=
  { id := "abc", title := "Song A", duration := 180, thumbnail := none,
    url := "https://youtube.com/watch?v=abc", requester := reqA,
    source := .youtube }

/-- A provider environment answering only the free-text query `song a`,
with the catalog client unconfigured. -/
def envA : ResolveEnv :=
  { searchResults := fun s => if s = "song a" then [vidA] else [],
    spotify := none }

/-- A provider environment that answers every search (so a raw-query
fallback would succeed) but whose catalog client is unconfigured. -/
def envNoSpotify : ResolveEnv :=
  { searchResults := fun _ => [vidA], spotify := none }

/-- A queue map holding exactly one fresh queue, for guild `g1`. -/
def qsOne : QueueMap := fun g => if g = "g1" then some initQueue else none

/-- The empty queue map. -/
def qsNone : QueueMap := fun _ => none

/-- A queue playing its last track with nothing pending: `currentTrack` set,
pending empty, flagged as playing. -/
def qStale : Queue := { initQueue with currentTrack := some trackA, isPlaying := true }

/-- A queue with two pending tracks, currently playing. -/
def qTwo : Queue :=
  { initQueue with tracks := [trackA, trackB], isPlaying := true }

/-- `qTwo` after removing its first pending track. -/
def qTwoRem : Queue := { qTwo with tracks := [trackB] }

/-- A queue that is playing `trackA` with `trackB` pending. -/
def qPlaying : Queue :=
  { initQueue with
      isPlaying := true
      currentTrack := some trackA
      tracks := [trackB] }

/-- A queue map holding `qPlaying` for guild `gW`. -/
def qsPlaying : QueueMap := fun g => if g = "gW" then some qPlaying else none

/-- Two distinct voice channels of the same guild. -/
def chX : VoiceChannelRef := { id := "cx", guildId := "g1" }

/-- See `chX`. -/
def chY : VoiceChannelRef := { id := "cy", guildId := "g1" }

/-- A connection bound to `chX`. -/
def connW : GuildConnection := { voiceChannel := chX, textChannel := none }

/-- A registry state where guild `g1` is connected to channel `cx`. -/
def stW : ManagerState :=
  { connections := fun g => if g = "g1" then some connW else none,
    queues := fun _ => none }

/-- A queue with shuffle already on and two pending tracks. -/
def qShufOn : Queue :=
  { initQueue with shuffle := true, tracks := [trackA, trackB] }

/-- A concrete draw function for the shuffle loop. -/
def rand0 : Nat → Nat := fun _ => 0

/-! ## Theorems -/

/-- C1: the spec says a skip (or natural completion) with empty pending and a
`currentTrack` moves the controller to Idle **and clears `currentTrack`**.
The code clears both flags but `playNext` returns early on an empty pending
list without ever clearing `currentTrack`, so the stale track is retained —
and, as the last two conjuncts show, the auto-start guard
`!queue.isPlaying && !queue.currentTrack` in `addTrack` consequently never
fires again: a later successful `addTrack` enqueues without starting
playback. -/
theorem idle_with_empty_pending_retains_currentTrack :
    (skipQueueEffect qStale).isPlaying = false ∧
    (skipQueueEffect qStale).isPaused = false ∧
    (skipQueueEffect qStale).currentTrack = some trackA ∧
    (addTrackQueueEffect trackB (skipQueueEffect qStale)).currentTrack = some trackA ∧
    (addTrackQueueEffect trackB (skipQueueEffect qStale)).tracks = [trackB] :=
  ⟨rfl, rfl, rfl, rfl, rfl⟩

/-- C2: the spec claims `playing && paused` are never both true in any steady
state reachable through the handlers and public operations. The state reached
from the fresh queue by the `Playing` handler followed by the `Paused`
handler (i.e. `pause()` during playback) has both flags true, because the
`Paused` handler never clears `isPlaying`. -/
theorem paused_handler_reaches_playing_and_paused :
    ReachableQueue (onPaused (onPlaying initQueue)) ∧
    (onPaused (onPlaying initQueue)).isPlaying = true ∧
    (onPaused (onPlaying initQueue)).isPaused = true := by
  refine ⟨?_, rfl, rfl⟩
  exact Relation.ReflTransGen.tail
    (Relation.ReflTransGen.tail Relation.ReflTransGen.refl (QStep.playing _))
    (QStep.pausedEvt _)

/-- C5: with a non-empty pending list, the completion-driven advance (skip or
natural end-of-track) pops the former head of pending into `currentTrack`
and shrinks pending by exactly one. -/
theorem skip_nonempty_pending_advances (q : Queue) (t : Track)
    (rest : List Track) (h : q.tracks = t :: rest) :
    (skipQueueEffect q).currentTrack = some t ∧
    (skipQueueEffect q).tracks = rest ∧
    (skipQueueEffect q).tracks.length + 1 = q.tracks.length := by
  simp [skipQueueEffect, onIdle, playNext, h]

/-- Witness for C5: the advance on a queue with pending `[trackA, trackB]`
promotes `trackA` and leaves pending `[trackB]`. -/
theorem skip_nonempty_pending_advances_witness :
    (skipQueueEffect qTwo).currentTrack = some trackA ∧
    (skipQueueEffect qTwo).tracks = [trackB] ∧
    (skipQueueEffect qTwo).tracks.length + 1 = qTwo.tracks.length :=
  skip_nonempty_pending_advances qTwo trackA [trackB] rfl

/-- C7: `removeTrack` fails (returning the untouched queue) exactly when the
index is outside `[0, pendingLength)`, and on success removes exactly the
track at that index, leaving `currentTrack`, the flags, the volume, the loop
mode and the shuffle flag untouched. -/
theorem removeTrack_spec (q : Queue) (i : Int) :
    (removeTrack q i = none ↔ i < 0 ∨ (q.tracks.length : Int) ≤ i) ∧
    ∀ q', removeTrack q i = some q' →
      q'.tracks = q.tracks.take i.toNat ++ q.tracks.drop (i.toNat + 1) ∧
      q'.tracks.length + 1 = q.tracks.length ∧
      q'.currentTrack = q.currentTrack ∧
      q'.isPlaying = q.isPlaying ∧ q'.isPaused = q.isPaused ∧
      q'.volume = q.volume ∧ q'.loop = q.loop ∧ q'.shuffle = q.shuffle := by
  unfold removeTrack
  by_cases hc : i < 0 ∨ (q.tracks.length : Int) ≤ i
  · rw [if_pos hc]
    exact ⟨⟨fun _ => hc, fun _ => rfl⟩, fun q' h => Option.noConfusion h⟩
  · rw [if_neg hc]
    refine ⟨⟨fun h => Option.noConfusion h, fun h => absurd h hc⟩, ?_⟩
    intro q' h
    injection h with h'
    subst h'
    push_neg at hc
    have hi : i.toNat < q.tracks.length := by omega
    refine ⟨List.eraseIdx_eq_take_drop_succ _ _, ?_, rfl, rfl, rfl, rfl, rfl, rfl⟩
    rw [List.length_eraseIdx, if_pos hi]
    omega

/-- Witness for C7: on a queue with two pending tracks, index `-1` and index
`2` fail, and removing index `0` keeps exactly the other track and the same
`currentTrack`. -/
theorem removeTrack_spec_witness :
    removeTrack qTwo (-1) = none ∧ removeTrack qTwo 2 = none ∧
    qTwoRem.tracks = qTwo.tracks.take 0 ++ qTwo.tracks.drop 1 ∧
    qTwoRem.currentTrack = qTwo.currentTrack :=
  ⟨(removeTrack_spec qTwo (-1)).1.mpr (Or.inl (by decide)),
   (removeTrack_spec qTwo 2).1.mpr (Or.inr (by decide)),
   ((removeTrack_spec qTwo 0).2 qTwoRem rfl).1,
   ((removeTrack_spec qTwo 0).2 qTwoRem rfl).2.2.1⟩

/-- C8: `setVolume` stores the argument clamped to `[0, 100]` — in
particular `150` clamps to `100` and `-5` clamps to `0` — and touches
nothing else of the queue. -/
theorem setVolume_clamps (q : Queue) (v : Int) :
    (setVolume q v).volume = max 0 (min 100 v) ∧
    0 ≤ (setVolume q v).volume ∧ (setVolume q v).volume ≤ 100 ∧
    (setVolume q 150).volume = 100 ∧ (setVolume q (-5)).volume = 0 ∧
    (setVolume q v).tracks = q.tracks ∧
    (setVolume q v).currentTrack = q.currentTrack ∧
    (setVolume q v).isPlaying = q.isPlaying ∧
    (setVolume q v).isPaused = q.isPaused := by
  refine ⟨rfl, ?_, ?_, rfl, rfl, rfl, rfl, rfl, rfl⟩ <;>
    simp [setVolume]

/-- C3 counterexample: with the catalog client unconfigured but the primary
provider answering every query (so a raw-query fallback would have
succeeded), resolving a Spotify track URL fails with
`Spotify not configured`, and `addTrack` returns no track and leaves the
queue map unchanged — there is no fallback to free-text search. -/
theorem spotify_unavailable_fails_without_fallback :
    isSpotifyUrl "https://open.spotify.com/track/abc" = true ∧
    getSpotifyTrack envNoSpotify "https://open.spotify.com/track/abc" reqA =
      .error "Spotify not configured" ∧
    searchYouTube envNoSpotify "https://open.spotify.com/track/abc" reqA =
      .ok resolvedA ∧
    (addTrack envNoSpotify qsOne "g1" "https://open.spotify.com/track/abc" reqA).1 =
      none ∧
    (addTrack envNoSpotify qsOne "g1" "https://open.spotify.com/track/abc" reqA).2 "g1" =
      some initQueue :=
  ⟨by decide, rfl, rfl, rfl, rfl⟩

/-- C3 amended: when the catalog client is unconfigured, resolving a
catalog-reference (Spotify) query fails with `Spotify not configured` and the
triggering `addTrack` returns no track with the queue map unchanged; no
fallback search is attempted. -/
theorem spotify_unavailable_resolution_fails (env : ResolveEnv)
    (qs : QueueMap) (g query : String) (req : Requester)
    (h1 : isYouTubeUrl query = false) (h2 : isSpotifyUrl query = true)
    (h3 : env.spotify = none) :
    resolveQuery env query req = .error "Spotify not configured" ∧
    addTrack env qs g query req = (none, qs) := by
  have hr : resolveQuery env query req = .error "Spotify not configured" := by
    simp [resolveQuery, h1, h2, getSpotifyTrack, h3]
  exact ⟨hr, by simp [addTrack, hr]⟩

/-- Witness for the amended C3, at the concrete environment of the
counterexample. -/
theorem spotify_unavailable_resolution_fails_witness :
    resolveQuery envNoSpotify "https://open.spotify.com/track/abc" reqA =
      .error "Spotify not configured" ∧
    addTrack envNoSpotify qsOne "g1" "https://open.spotify.com/track/abc" reqA =
      (none, qsOne) :=
  spotify_unavailable_resolution_fails envNoSpotify qsOne "g1"
    "https://open.spotify.com/track/abc" reqA rfl rfl rfl

/-- C4 counterexample: one successful `addTrack` on a registered, fresh
(idle, empty) queue leaves pending length `0`, not `1`: the track is
appended, but auto-start immediately pops it into `currentTrack`, so pending
length does not equal the count of successful resolutions. -/
theorem addTrack_autostart_consumes_pending_head :
    (addTrack envA qsOne "g1" "song a" reqA).1 = some resolvedA ∧
    (addTrack envA qsOne "g1" "song a" reqA).2 "g1" =
      some { initQueue with currentTrack := some resolvedA } ∧
    ((addTrack envA qsOne "g1" "song a" reqA).2 "g1").map
      (fun q => q.tracks.length) = some 0 :=
  ⟨rfl, rfl, rfl⟩

/-- C4 amended: a failed resolution leaves the queue map unchanged and
returns no track; a successful resolution returns the track, appends it at
the pending tail, touches no other guild, and then — exactly when the queue
was neither playing nor holding a `currentTrack` — auto-start immediately
moves the new pending head into `currentTrack` (so pending length equals the
count of successful resolutions minus the auto-started pops). -/
theorem addTrack_effect_spec (env : ResolveEnv) (qs : QueueMap)
    (g query : String) (req : Requester) (q : Queue) (hq : qs g = some q) :
    (∀ e, resolveQuery env query req = .error e →
      addTrack env qs g query req = (none, qs)) ∧
    (∀ t, resolveQuery env query req = .ok t →
      (addTrack env qs g query req).1 = some t ∧
      (∀ g2, g2 ≠ g → (addTrack env qs g query req).2 g2 = qs g2) ∧
      (¬(q.isPlaying = false ∧ q.currentTrack = none) →
        (addTrack env qs g query req).2 g =
          some { q with tracks := q.tracks ++ [t] }) ∧
      ((q.isPlaying = false ∧ q.currentTrack = none) →
        (addTrack env qs g query req).2 g =
          some { q with
                   tracks := (q.tracks ++ [t]).tail
                   currentTrack := (q.tracks ++ [t]).head? })) := by
  constructor
  · intro e he
    simp [addTrack, he]
  · intro t ht
    refine ⟨by simp [addTrack, ht, hq], ?_, ?_, ?_⟩
    · intro g2 hg2
      simp [addTrack, ht, hq, setQueue, hg2]
    · intro hact
      have hcond : (!q.isPlaying && q.currentTrack.isNone) = false := by
        cases hp : q.isPlaying <;> cases hc : q.currentTrack <;>
          simp_all
      simp [addTrack, ht, hq, setQueue, addTrackQueueEffect, hcond]
    · intro hidle
      obtain ⟨hp, hc⟩ := hidle
      have hcond : (!q.isPlaying && q.currentTrack.isNone) = true := by
        simp [hp, hc]
      cases htr : q.tracks with
      | nil =>
        simp [addTrack, ht, hq, setQueue, addTrackQueueEffect, hcond, htr,
          playNext]
      | cons h0 hs =>
        simp [addTrack, ht, hq, setQueue, addTrackQueueEffect, hcond, htr,
          playNext]

/-- Witness for the amended C4: a successful `addTrack` while a track is
playing appends at the tail without auto-start. -/
theorem addTrack_effect_spec_witness :
    (addTrack envA qsPlaying "gW" "song a" reqA).1 = some resolvedA ∧
    (addTrack envA qsPlaying "gW" "song a" reqA).2 "gW" =
      some { qPlaying with tracks := qPlaying.tracks ++ [resolvedA] } :=
  ⟨((addTrack_effect_spec envA qsPlaying "gW" "song a" reqA qPlaying rfl).2
      resolvedA rfl).1,
   ((addTrack_effect_spec envA qsPlaying "gW" "song a" reqA qPlaying rfl).2
      resolvedA rfl).2.2.1 (by decide)⟩

/-- C6: at the registry level (the front-end guard around `joinChannel`),
a `join` for a guild whose session is already bound to the same channel is a
no-op returning the existing state, and a `join` while bound to a different
channel fails with a channel conflict, leaving the state — in particular the
connection binding — untouched. -/
theorem join_existing_session_spec (st : ManagerState) (g : String)
    (ch : VoiceChannelRef) (txt : Option String) (conn : GuildConnection)
    (hc : st.connections g = some conn) :
    (conn.voiceChannel.id = ch.id → join st g ch txt = (.ok, st)) ∧
    (conn.voiceChannel.id ≠ ch.id →
      join st g ch txt = (.channelConflict, st)) := by
  constructor
  · intro he
    simp [join, hc, he]
  · intro hne
    simp [join, hc, hne]

/-- Witness for C6 at a concrete registry state bound to channel `cx`. -/
theorem join_existing_session_spec_witness :
    join stW "g1" chX none = (.ok, stW) ∧
    join stW "g1" chY none = (.channelConflict, stW) :=
  ⟨(join_existing_session_spec stW "g1" chX none connW rfl).1 rfl,
   (join_existing_session_spec stW "g1" chY none connW rfl).2 (by decide)⟩

/-- C10: `addTrack` for a guild with no registered queue still returns the
resolved track, while the whole queue map is returned unchanged (no queue is
created, nothing else mutated). -/
theorem addTrack_no_queue_returns_track (env : ResolveEnv) (qs : QueueMap)
    (g query : String) (req : Requester) (t : Track)
    (hq : qs g = none) (hr : resolveQuery env query req = .ok t) :
    addTrack env qs g query req = (some t, qs) := by
  simp [addTrack, hr, hq]

/-- Witness for C10: a successfully resolving query on a guild with no queue
returns the track and the untouched (empty) queue map. -/
theorem addTrack_no_queue_returns_track_witness :
    addTrack envA qsNone "g9" "song a" reqA = (some resolvedA, qsNone) :=
  addTrack_no_queue_returns_track envA qsNone "g9" "song a" reqA resolvedA
    rfl rfl

/-- Replacing the element at `k` and consing the element it held is a
permutation of consing the new element. -/
theorem cons_get_set_perm {α : Type} :
    ∀ (xs : List α) (k : Nat) (hk : k < xs.length) (x : α),
      (xs.get ⟨k, hk⟩ :: xs.set k x).Perm (x :: xs)
  | [], k, hk, _ => absurd hk (by simp)
  | y :: ys, 0, _, x => by
      simpa using List.Perm.swap x y ys
  | y :: ys, k + 1, hk, x => by
      have hk' : k < ys.length := by simpa using hk
      have ih := cons_get_set_perm ys k hk' x
      simp only [List.get, List.set]
      exact ((List.Perm.swap y (ys.get ⟨k, hk'⟩) (ys.set k x)).trans
        (ih.cons y)).trans (List.Perm.swap x y ys)

/-- Swapping two in-range positions of a list is a permutation. -/
theorem set_set_perm {α : Type} :
    ∀ (l : List α) (i j : Nat) (hi : i < l.length) (hj : j < l.length),
      ((l.set i (l.get ⟨j, hj⟩)).set j (l.get ⟨i, hi⟩)).Perm l
  | [], _, _, hi, _ => absurd hi (by simp)
  | _ :: _, 0, 0, _, _ => by simp
  | y :: ys, 0, j + 1, _, hj => by
      have hj' : j < ys.length := by simpa using hj
      simpa [List.get, List.set] using cons_get_set_perm ys j hj' y
  | y :: ys, i + 1, 0, hi, _ => by
      have hi' : i < ys.length := by simpa using hi
      simpa [List.get, List.set] using cons_get_set_perm ys i hi' y
  | y :: ys, i + 1, j + 1, hi, hj => by
      have hi' : i < ys.length := by simpa using hi
      have hj' : j < ys.length := by simpa using hj
      simpa [List.get, List.set] using (set_set_perm ys i j hi' hj').cons y

/-- One swap of the shuffle loop permutes the list. -/
theorem listSwap_perm {α : Type} (l : List α) (i j : Nat) :
    (listSwap l i j).Perm l := by
  unfold listSwap
  by_cases hi : i < l.length
  · by_cases hj : j < l.length
    · rw [dif_pos hi, dif_pos hj]
      exact set_set_perm l i j hi hj
    · rw [dif_pos hi, dif_neg hj]
  · rw [dif_neg hi]

/-- The whole shuffle loop permutes the list, whatever the draws. -/
theorem fyAux_perm {α : Type} (rand : Nat → Nat) :
    ∀ (n : Nat) (l : List α), (fyAux rand n l).Perm l
  | 0, l => .refl l
  | n + 1, l =>
    (fyAux_perm rand n _).trans (listSwap_perm l (n + 1) (rand (n + 1) % (n + 2)))

/-- `fisherYates` produces a permutation of its input. -/
theorem fisherYates_perm {α : Type} (rand : Nat → Nat) (l : List α) :
    (fisherYates rand l).Perm l :=
  fyAux_perm rand _ l

/-- C9: `toggleShuffle` always flips the shuffle flag; whenever it runs, the
new pending list is a permutation (same multiset) of the old one — in
particular on every false-to-true edge, with a fresh permutation pass run on
each such edge; on a true-to-false edge the pending order is left exactly
unchanged; `currentTrack` and the rest of the queue are untouched. -/
theorem toggleShuffle_spec (q : Queue) (rand : Nat → Nat) :
    (toggleShuffle rand q).shuffle = !q.shuffle ∧
    ((toggleShuffle rand q).tracks).Perm q.tracks ∧
    (q.shuffle = true → (toggleShuffle rand q).tracks = q.tracks) ∧
    (toggleShuffle rand q).currentTrack = q.currentTrack ∧
    (toggleShuffle rand q).isPlaying = q.isPlaying ∧
    (toggleShuffle rand q).volume = q.volume := by
  by_cases h : (!q.shuffle && decide (1 < q.tracks.length)) = true
  · have h1 : q.shuffle = false := by
      cases hq0 : q.shuffle
      · rfl
      · rw [hq0] at h
        simp at h
    refine ⟨?_, ?_, ?_, ?_, ?_, ?_⟩
    · simp [toggleShuffle, h]
    · simpa [toggleShuffle, h] using fisherYates_perm rand q.tracks
    · intro hs
      rw [hs] at h1
      cases h1
    · simp [toggleShuffle, h]
    · simp [toggleShuffle, h]
    · simp [toggleShuffle, h]
  · refine ⟨?_, ?_, ?_, ?_, ?_, ?_⟩ <;> simp [toggleShuffle, h]

/-- Witness for C9: toggling shuffle off (a true-to-false edge) leaves the
pending order unchanged and clears the flag. -/
theorem toggleShuffle_spec_witness :
    (toggleShuffle rand0 qShufOn).tracks = qShufOn.tracks ∧
    (toggleShuffle rand0 qShufOn).shuffle = false :=
  ⟨(toggleShuffle_spec qShufOn rand0).2.2.1 rfl,
   (toggleShuffle_spec qShufOn rand0).1⟩

end DudeBot
